import Mathlib

/-!
# Verification of the browser-control core (connection manager, session
# registry, telemetry collector, human-interaction engine)

Shallow embedding of the TypeScript sources: the `BrowserManager` class
(connection strategy chain, page registry, per-page telemetry buffers,
storage-state load) and the human-interaction helpers (`generateMousePath`,
`humanMouseMove`, `humanType`).  JavaScript numbers are embedded as exact
rationals (`ℚ`), the unseeded `Math.random()` source as an explicit stream
`ℕ → ℚ` of values in `[0, 1)`, JS `Map`s as association lists, and the
mutable arrays held by the log maps as indices into an explicit store, so
that aliasing between a returned array and the live buffer is visible.
-/

/- ──────────────────────────── Telemetry entries ──────────────────────── -/

/-- `ConsoleLogEntry { type, text, url, timestamp }` from the source. -/
structure ConsoleLogEntry where
  type : String
  text : String
  url : String
  timestamp : Nat
deriving DecidableEq, Repr

/-- `NetworkLogEntry { url, method, status?, resourceType, size?, timestamp,
duration? }` from the source. -/
structure NetworkLogEntry where
  url : String
  method : String
  status : Option Nat
  resourceType : String
  size : Option Nat
  timestamp : Nat
  duration : Option Nat
deriving DecidableEq, Repr

/-- The buffer-append step shared by both telemetry event handlers in
`BrowserManager.setupPageTracking`:
`if (logs && logs.length < 500) { logs.push(entry) }`.
The entry is appended only while the buffer holds fewer than 500 entries;
otherwise the handler does nothing (the incoming entry is dropped). -/
def recordBounded {α : Type} (logs : List α) (e : α) : List α :=
  if logs.length < 500 then logs ++ [e] else logs

/-- Delivering a whole sequence of events to one buffer, one
`recordBounded` step per event. -/
def recordAll {α : Type} (logs : List α) (es : List α) : List α :=
  es.foldl recordBounded logs

/-- Concrete console entries (distinct timestamps) used for the C1
counterexample. -/
def c1Entry (i : Nat) : ConsoleLogEntry :=
  ⟨"log", "message", "", i⟩

/- ─────────────────────── Human motion engine (ℚ model) ───────────────── -/

/-- A 2-D point with exact rational coordinates (JS numbers embedded as ℚ). -/
structure Pt where
  x : ℚ
  y : ℚ
deriving DecidableEq, Repr

/-- `randf(min, max) = Math.random() * (max - min) + min`, with the random
draw made explicit: `u` is the value produced by `Math.random()`. -/
def randf (u lo hi : ℚ) : ℚ :=
  u * (hi - lo) + lo

/-- `rand(min, max) = Math.floor(Math.random() * (max - min + 1)) + min`,
with the `Math.random()` draw `u` explicit; yields an integer in
`[lo, hi]` whenever `0 ≤ u < 1` and `lo ≤ hi`. -/
def jsRandInt (u : ℚ) (lo hi : Nat) : Nat :=
  ⌊u * ((hi : ℚ) - (lo : ℚ) + 1)⌋₊ + lo

/-- JS `Math.round`: round half up, `Math.round(q) = ⌊q + 1/2⌋`. -/
def jsRound (q : ℚ) : ℤ :=
  ⌊q + 1/2⌋

/-- `bezierPoint(p0, p1, p2, p3, t)`: cubic Bézier evaluation, verbatim from
the source. -/
def bezierPoint (p0 p1 p2 p3 : Pt) (t : ℚ) : Pt :=
  let u := 1 - t
  ⟨u * u * u * p0.x + 3 * u * u * t * p1.x + 3 * u * t * t * p2.x + t * t * t * p3.x,
   u * u * u * p0.y + 3 * u * u * t * p1.y + 3 * u * t * t * p2.y + t * t * t * p3.y⟩

/-- The ease-in/ease-out time warp applied before evaluating the curve:
`t < 0.5 ? 2*t*t : 1 - Math.pow(-2*t + 2, 2) / 2`. -/
def easeInOut (t : ℚ) : ℚ :=
  if t < 1/2 then 2 * t * t else 1 - (-2 * t + 2) ^ 2 / 2

/-- `generateMousePath(start, end, steps)` from the source, with the
`Math.random()` stream `rng : ℕ → ℚ` explicit.  The two interior control
points consume draws 0–7; the per-sample jitter for sample `i` consumes
draws `8 + 2i` and `9 + 2i`.  The loop runs `i = 0 .. steps` inclusive and
each sample is `Math.round`ed to integer pixels. -/
def generateMousePath (rng : ℕ → ℚ) (start pEnd : Pt) (steps : ℕ) :
    List (ℤ × ℤ) :=
  let dx := pEnd.x - start.x
  let dy := pEnd.y - start.y
  let cp1 : Pt := ⟨start.x + dx * randf (rng 0) (1/5) (2/5) + randf (rng 1) (-30) 30,
                   start.y + dy * randf (rng 2) (1/10) (3/10) + randf (rng 3) (-30) 30⟩
  let cp2 : Pt := ⟨start.x + dx * randf (rng 4) (3/5) (4/5) + randf (rng 5) (-20) 20,
                   start.y + dy * randf (rng 6) (7/10) (9/10) + randf (rng 7) (-20) 20⟩
  (List.range (steps + 1)).map (fun (i : ℕ) =>
    let t : ℚ := (i : ℚ) / (steps : ℚ)
    let p := bezierPoint start cp1 cp2 pEnd (easeInOut t)
    (jsRound (p.x + randf (rng (8 + 2 * i)) (-1) 1),
     jsRound (p.y + randf (rng (9 + 2 * i)) (-1) 1)))

/-- Squared Euclidean distance between two points (the source computes
`distance = Math.sqrt(dx² + dy²)`; we keep the exact square). -/
def dist2 (a b : Pt) : ℚ :=
  (b.x - a.x) ^ 2 + (b.y - a.y) ^ 2

/-- The step count chosen by `humanMouseMove`:
`Math.max(5, Math.min(25, Math.floor(distance / 30)))` where
`distance = Math.sqrt(d2)`.  Over exact rationals,
`⌊√d2 / 30⌋ = Nat.sqrt ⌊d2⌋ / 30` (floor of a real square root equals
`Nat.sqrt` of the floor, and flooring a division by 30 commutes with the
outer floor), which keeps the definition computable. -/
def stepsFor (d2 : ℚ) : ℕ :=
  max 5 (min 25 (Nat.sqrt ⌊d2⌋₊ / 30))

/-- The full sampled path produced by `humanMouseMove(page, toX, toY)`
starting from the current pointer position `cur`. -/
def humanMouseMovePath (rng : ℕ → ℚ) (cur : Pt) (toX toY : ℚ) :
    List (ℤ × ℤ) :=
  generateMousePath rng cur ⟨toX, toY⟩ (stepsFor (dist2 cur ⟨toX, toY⟩))

/-- The all-zeros `Math.random()` stream (a legal stream: every draw is in
`[0, 1)`), used for concrete instances. -/
def rngZero : ℕ → ℚ :=
  fun _ => 0

/- ─────────────────────── Human typing engine (humanType) ─────────────── -/

/-- The fixed punctuation set tested by `/[!@#$%^&*()]/` in `humanType`. -/
def punctuationChars : List Char :=
  ['!', '@', '#', '$', '%', '^', '&', '*', '(', ')']

/-- The per-character delay range selected by the `if`/`else` chain in
`humanType`: space → 30–80, newline or `.` → 100–250, `/[A-Z]/` → 60–130,
`/[0-9]/` → 70–140, `/[!@#$%^&*()]/` → 80–160, default → 30–100. -/
def charDelayRange (c : Char) : Nat × Nat :=
  if c = ' ' then (30, 80)
  else if c = '\n' ∨ c = '.' then (100, 250)
  else if 'A' ≤ c ∧ c ≤ 'Z' then (60, 130)
  else if '0' ≤ c ∧ c ≤ '9' then (70, 140)
  else if c ∈ punctuationChars then (80, 160)
  else (30, 100)

/-- The base inter-keystroke delay `rand(lo, hi)` drawn for character `c`
(`u0` is the `Math.random()` draw used by `rand`). -/
def humanTypeBaseDelay (u0 : ℚ) (c : Char) : Nat :=
  jsRandInt u0 (charDelayRange c).1 (charDelayRange c).2

/-- The full delay for one character in `humanType`: the base class delay,
plus — when the extra draw `u1` satisfies `Math.random() < 0.05` — a
thinking pause `rand(200, 500)` drawn from `u2`. -/
def humanTypeDelay (c : Char) (u0 u1 u2 : ℚ) : Nat :=
  if u1 < 1/20 then humanTypeBaseDelay u0 c + jsRandInt u2 200 500
  else humanTypeBaseDelay u0 c

/- ──────────────── Connection strategy resolver (connect) ─────────────── -/

/-- Prefix match of a pattern against the front of a character list. -/
def leadMatch : List Char → List Char → Bool
  | [], _ => true
  | _ :: _, [] => false
  | p :: ps, c :: cs => p == c && leadMatch ps cs

/-- Substring search over character lists. -/
def containsSub (pat : List Char) : List Char → Bool
  | [] => leadMatch pat []
  | c :: cs => leadMatch pat (c :: cs) || containsSub pat cs

/-- JS `s.includes(pat)`, used by the error classification in
`launchPersistent`. -/
def strContains (s pat : String) : Bool :=
  containsSub pat.data s.data

/-- The strategies `connect` can attempt, in the order of the source:
configured-CDP attach, persistent profile launch, spawn-and-attach
recovery, default CDP attach, temporary (ephemeral) launch. -/
inductive Strat
  | attachConfigured
  | persistent
  | spawnAttach
  | defaultAttach
  | ephemeral
deriving DecidableEq, Repr

/-- The connection-relevant fields of `BrowserConnectionOptions`. -/
structure BrowserConnectionOptions where
  cdpUrl : Option String := none
  userDataDir : Option String := none
  browser : Option String := none
  channel : Option String := none
  device : Option String := none
  proxyServer : Option String := none
deriving DecidableEq, Repr

/-- Outcomes of the driver calls `connect` can make: `cdpAttachErr url`
is the error raised by `chromium.connectOverCDP(url)` (`none` = success),
`persistentErr` the error raised by `launchPersistentContext` (`none` =
success), `chromeStarts` whether a spawned Chrome opens its debug port
within the 15 s poll window, `tempLaunchErr` the error raised by
`browserType.launch`. -/
structure DriverEnv where
  cdpAttachErr : String → Option String
  persistentErr : Option String
  chromeStarts : Bool
  tempLaunchErr : Option String

/-- What a successful `connect` reports: the status message it returns and
the engine that `getBrowserInfo()` reports
(`this.options.browser || "chromium"`). -/
structure SessionDesc where
  message : String
  engine : String
deriving DecidableEq, Repr

/-- Result of `connect` plus the trace of strategies it attempted. -/
structure ConnectOutcome where
  result : Except String SessionDesc
  attempted : List Strat

/-- JS truthiness of an optional string field (`undefined` and `""` are
falsy). -/
def truthyOpt : Option String → Bool
  | none => false
  | some s => s != ""

/-- `getBrowserInfo().engine`: `this.options.browser || "chromium"`. -/
def engineOf (o : BrowserConnectionOptions) : String :=
  o.browser.getD "chromium"

/-- One of the ` (label: value)` fragments of the temporary-launch status
message (empty when the option is unset or empty). -/
def optSuffix (label : String) (v : Option String) : String :=
  match v with
  | some s => if s != "" then " (" ++ label ++ ": " ++ s ++ ")" else ""
  | none => ""

/-- The status message returned after `launchTemporary()`:
`` `Launched ${browser}${channel}${device}${proxy}` ``. -/
def temporaryLaunchMessage (o : BrowserConnectionOptions) : String :=
  "Launched " ++ o.browser.getD "chromium" ++ optSuffix "channel" o.channel
    ++ optSuffix "device" o.device ++ optSuffix "proxy" o.proxyServer

/-- The substrings `launchPersistent` matches to classify a launch error as
needing the CDP spawn fallback. -/
def needsCdpMsg1 : String := "non-default data directory"

def needsCdpMsg2 : String := "remote debugging"

/-- The substrings `launchPersistent` matches to classify a launch error as
a locked profile. -/
def lockMsg1 : String := "lock"

def lockMsg2 : String := "already running"

def lockMsg3 : String := "SingletonLock"

/-- The remediation text prepended to the original error when the profile
is locked (the thrown message is this text followed by the original
error message). -/
def lockedRemediation : String :=
  "Chrome profile is locked — close ALL Chrome windows first, then retry.\nOr use CDP instead: start Chrome with --remote-debugging-port=9222 and use --cdp http://localhost:9222\nOriginal error: "

/-- How `launchPersistent` can fail: with the `needsCdpFallback` marker
set (caught by `connect`, which then runs the spawn-and-attach recovery)
or with a plain thrown error (re-thrown by `connect`). -/
inductive PersistentFailure
  | needsCdpFallback (msg : String)
  | thrown (msg : String)
deriving DecidableEq, Repr

/-- `BrowserManager.launchPersistent`: requires a non-empty directory, and
classifies any `launchPersistentContext` error by substring matching —
first the `needsCdpFallback` class (`"non-default data directory"` or
`"remote debugging"`), then the locked-profile class (`"lock"`,
`"already running"` or `"SingletonLock"`, re-thrown with remediation
text), else the error is re-thrown unchanged. -/
def launchPersistentModel (dir : String) (env : DriverEnv) :
    Except PersistentFailure Unit :=
  if dir = "" then
    .error (.thrown "userDataDir is required for persistent launch")
  else
    match env.persistentErr with
    | none => .ok ()
    | some m =>
      if strContains m needsCdpMsg1 || strContains m needsCdpMsg2 then
        .error (.needsCdpFallback ("NEEDS_CDP_FALLBACK: " ++ m))
      else if strContains m lockMsg1 || strContains m lockMsg2
          || strContains m lockMsg3 then
        .error (.thrown (lockedRemediation ++ m))
      else .error (.thrown m)

/-- `BrowserManager.spawnChromeAndConnect`: spawn Chrome with a debug port,
poll up to 15 s, then attach via CDP to `http://localhost:9222`. -/
def spawnChromeAndConnect (o : BrowserConnectionOptions) (env : DriverEnv) :
    Except String String :=
  if env.chromeStarts then
    match env.cdpAttachErr "http://localhost:9222" with
    | none => .ok ("Launched real " ++ o.channel.getD "chrome"
        ++ " with your profile and connected via CDP at http://localhost:9222")
    | some m => .error m
  else
    .error "Chrome did not start within 15s. Ensure no other Chrome instances are running and try again."

/-- `BrowserManager.connect`: if a CDP url is configured, attach to it
(with no fallback on failure); else if a profile directory is configured,
launch persistently, running the spawn-and-attach recovery only when the
failure carries the `needsCdpFallback` marker; else try the default local
debug endpoint and fall back to a temporary launch. -/
def connectModel (o : BrowserConnectionOptions) (env : DriverEnv) :
    ConnectOutcome :=
  if truthyOpt o.cdpUrl then
    match env.cdpAttachErr (o.cdpUrl.getD "http://localhost:9222") with
    | none => ⟨.ok ⟨"Connected via CDP to " ++ o.cdpUrl.getD "", engineOf o⟩,
        [.attachConfigured]⟩
    | some m => ⟨.error m, [.attachConfigured]⟩
  else if truthyOpt o.userDataDir then
    match launchPersistentModel (o.userDataDir.getD "") env with
    | .ok () => ⟨.ok ⟨"Launched persistent " ++ o.browser.getD "chromium"
        ++ " with profile: " ++ o.userDataDir.getD "", engineOf o⟩,
        [.persistent]⟩
    | .error (.needsCdpFallback _) =>
      match spawnChromeAndConnect o env with
      | .ok msg => ⟨.ok ⟨msg, engineOf o⟩, [.persistent, .spawnAttach]⟩
      | .error m => ⟨.error m, [.persistent, .spawnAttach]⟩
    | .error (.thrown m) => ⟨.error m, [.persistent]⟩
  else
    match env.cdpAttachErr "http://localhost:9222" with
    | none => ⟨.ok ⟨"Connected via CDP to http://localhost:9222", engineOf o⟩,
        [.defaultAttach]⟩
    | some _ =>
      match env.tempLaunchErr with
      | none => ⟨.ok ⟨temporaryLaunchMessage o, engineOf o⟩,
          [.defaultAttach, .ephemeral]⟩
      | some m => ⟨.error m, [.defaultAttach, .ephemeral]⟩

/-- Concrete options for the C3 counterexample: an explicit CDP url is
configured, no profile directory. -/
def c3Options : BrowserConnectionOptions :=
  { cdpUrl := some "http://localhost:9222", browser := some "firefox" }

/-- Concrete driver environment for the C3 counterexample: no endpoint is
listening (every CDP attach fails), while a temporary launch would
succeed. -/
def c3Env : DriverEnv :=
  { cdpAttachErr := fun _ => some "connect ECONNREFUSED 127.0.0.1:9222"
    persistentErr := none
    chromeStarts := false
    tempLaunchErr := none }

/- ───────────── Session registry and telemetry collector ──────────────── -/

/-- `Map.get` on a JS `Map` embedded as an insertion-ordered association
list. -/
def alGet {κ β : Type} [DecidableEq κ] : List (κ × β) → κ → Option β
  | [], _ => none
  | (a, b) :: l, k => if a = k then some b else alGet l k

/-- `Map.set`: replace in place when the key exists, else append (JS `Map`s
keep insertion order). -/
def alSet {κ β : Type} [DecidableEq κ] : List (κ × β) → κ → β → List (κ × β)
  | [], k, v => [(k, v)]
  | (a, b) :: l, k, v => if a = k then (k, v) :: l else (a, b) :: alSet l k v

/-- `Map.delete`. -/
def alErase {κ β : Type} [DecidableEq κ] (l : List (κ × β)) (k : κ) :
    List (κ × β) :=
  l.filter (fun p => !decide (p.1 = k))

/-- `Math.max(...map.keys())` as used by `getOrCreatePage`. -/
def maxKey {β : Type} (l : List (Nat × β)) : Nat :=
  (l.map Prod.fst).foldr max 0

/-- The mutable state of a `BrowserManager`, with the arrays held by the
two log `Map`s modelled as indices (`consoleRefs`/`networkRefs`) into
explicit stores, so that aliasing between a value returned by a getter and
the live buffer is observable.  Page handles are opaque numbers drawn from
`handleCtr`. -/
structure BM where
  connected : Bool
  nextPageId : Nat
  handleCtr : Nat
  pages : List (Nat × Nat)
  consoleRefs : List (Nat × Nat)
  consoleStore : List (List ConsoleLogEntry)
  networkRefs : List (Nat × Nat)
  networkStore : List (List NetworkLogEntry)
deriving DecidableEq, Repr

/-- A freshly connected manager with no tracked pages and `nextPageId = 1`
(the field initialisers of the class, after a connection that added no
pre-existing pages, e.g. `launchTemporary`). -/
def freshBM : BM :=
  ⟨true, 1, 0, [], [], [], [], []⟩

/-- `setupPageTracking(page, id)`: install a fresh empty console buffer and
a fresh empty network buffer for the page. -/
def setupPageTracking (s : BM) (pid : Nat) : BM :=
  { s with
    consoleRefs := alSet s.consoleRefs pid s.consoleStore.length
    consoleStore := s.consoleStore ++ [[]]
    networkRefs := alSet s.networkRefs pid s.networkStore.length
    networkStore := s.networkStore ++ [[]] }

/-- `newPage()`: requires a context (`getContext` throws when not
connected), creates a page handle, assigns `id = this.nextPageId++`,
registers it and installs tracking.  Returns the new state with the
assigned id and handle. -/
def newPage (s : BM) : Except String (BM × Nat × Nat) :=
  if s.connected then
    .ok (setupPageTracking
      { s with nextPageId := s.nextPageId + 1, handleCtr := s.handleCtr + 1,
               pages := alSet s.pages s.nextPageId s.handleCtr } s.nextPageId,
      s.nextPageId, s.handleCtr)
  else .error "Browser not connected. Call browser_connect first."

/-- `getOrCreatePage(pageId?)`: with an id, the page must be tracked or the
call fails; with no id, return the page with the highest id, or create one
when none are tracked. -/
def getOrCreatePage (s : BM) (pid? : Option Nat) :
    Except String (BM × Nat × Nat) :=
  match pid? with
  | some pid =>
    match alGet s.pages pid with
    | some h => .ok (s, pid, h)
    | none => .error ("Page " ++ toString pid
        ++ " not found. Use list_pages to see available pages.")
  | none =>
    if 0 < s.pages.length then
      .ok (s, maxKey s.pages, (alGet s.pages (maxKey s.pages)).getD 0)
    else newPage s

/-- `closePage(pageId)`: when the page is tracked, close it and drop it
from the registry and both log maps; otherwise do nothing. -/
def closePage (s : BM) (pid : Nat) : BM :=
  match alGet s.pages pid with
  | some _ =>
    { s with pages := alErase s.pages pid
             consoleRefs := alErase s.consoleRefs pid
             networkRefs := alErase s.networkRefs pid }
  | none => s

/-- `focusPage(pageId)`: `bringToFront` when tracked (a driver call with no
manager-state effect), nothing otherwise. -/
def focusPage (s : BM) (pid : Nat) : BM :=
  match alGet s.pages pid with
  | some _ => s
  | none => s

/-- The `page.on("console", ...)` handler: re-fetch the buffer from the map
and append while under 500 entries. -/
def consoleEvent (s : BM) (pid : Nat) (e : ConsoleLogEntry) : BM :=
  match alGet s.consoleRefs pid with
  | none => s
  | some r =>
    if (s.consoleStore.getD r []).length < 500 then
      { s with consoleStore :=
          s.consoleStore.set r (s.consoleStore.getD r [] ++ [e]) }
    else s

/-- The `page.on("response", ...)` handler's buffer append (the entry has
already been assembled from the response and the pending-request map). -/
def networkEvent (s : BM) (pid : Nat) (e : NetworkLogEntry) : BM :=
  match alGet s.networkRefs pid with
  | none => s
  | some r =>
    if (s.networkStore.getD r []).length < 500 then
      { s with networkStore :=
          s.networkStore.set r (s.networkStore.getD r [] ++ [e]) }
    else s

/-- `getConsoleLogs(pageId)` returns `map.get(pageId) || []`: the live
array reference when tracked (`some r`), a fresh empty array otherwise
(`none`). -/
def getConsoleLogsRef (s : BM) (pid : Nat) : Option Nat :=
  alGet s.consoleRefs pid

/-- The list denoted by a previously returned array reference in the
current state. -/
def consoleValAt (s : BM) (ref : Option Nat) : List ConsoleLogEntry :=
  match ref with
  | none => []
  | some r => s.consoleStore.getD r []

/-- The list a caller of `getConsoleLogs(pageId)` observes now. -/
def getConsoleLogsVal (s : BM) (pid : Nat) : List ConsoleLogEntry :=
  consoleValAt s (getConsoleLogsRef s pid)

/-- `clearConsoleLogs(pageId)`: `map.set(pageId, [])` — point the map at a
fresh empty array, leaving any previously returned array untouched. -/
def clearConsoleLogs (s : BM) (pid : Nat) : BM :=
  { s with consoleRefs := alSet s.consoleRefs pid s.consoleStore.length
           consoleStore := s.consoleStore ++ [[]] }

/-- `getNetworkLogs(pageId)` (see `getConsoleLogsRef`). -/
def getNetworkLogsRef (s : BM) (pid : Nat) : Option Nat :=
  alGet s.networkRefs pid

/-- See `consoleValAt`. -/
def networkValAt (s : BM) (ref : Option Nat) : List NetworkLogEntry :=
  match ref with
  | none => []
  | some r => s.networkStore.getD r []

/-- See `getConsoleLogsVal`. -/
def getNetworkLogsVal (s : BM) (pid : Nat) : List NetworkLogEntry :=
  networkValAt s (getNetworkLogsRef s pid)

/-- `clearNetworkLogs(pageId)` (see `clearConsoleLogs`). -/
def clearNetworkLogs (s : BM) (pid : Nat) : BM :=
  { s with networkRefs := alSet s.networkRefs pid s.networkStore.length
           networkStore := s.networkStore ++ [[]] }

/-- The `context.on("page", ...)` handler: assign the next id to the new
page and install tracking. -/
def pageCreatedEvent (s : BM) : BM × Nat :=
  (setupPageTracking
    { s with nextPageId := s.nextPageId + 1, handleCtr := s.handleCtr + 1,
             pages := alSet s.pages s.nextPageId s.handleCtr } s.nextPageId,
   s.nextPageId)

/-- The registry/telemetry operations a session can interleave. -/
inductive MOp
  | newPageOp
  | getOrCreateOp (pid? : Option Nat)
  | closePageOp (pid : Nat)
  | focusPageOp (pid : Nat)
  | pageCreatedEv
  | consoleEv (pid : Nat) (e : ConsoleLogEntry)
  | networkEv (pid : Nat) (e : NetworkLogEntry)
  | clearConsoleOp (pid : Nat)
  | clearNetworkOp (pid : Nat)

/-- One operation's effect on the manager state (a failed operation leaves
the state unchanged). -/
def stepOp (s : BM) : MOp → BM
  | .newPageOp => match newPage s with | .ok r => r.1 | .error _ => s
  | .getOrCreateOp p =>
    match getOrCreatePage s p with | .ok r => r.1 | .error _ => s
  | .closePageOp pid => closePage s pid
  | .focusPageOp pid => focusPage s pid
  | .pageCreatedEv => (pageCreatedEvent s).1
  | .consoleEv pid e => consoleEvent s pid e
  | .networkEv pid e => networkEvent s pid e
  | .clearConsoleOp pid => clearConsoleLogs s pid
  | .clearNetworkOp pid => clearNetworkLogs s pid

/-- Run a sequence of operations. -/
def runOps (s : BM) (ops : List MOp) : BM :=
  ops.foldl stepOp s

/-- The page ids assigned along a run, in order of assignment (an
operation assigns an id exactly when it advances `nextPageId`, and the id
assigned is the pre-state's `nextPageId`). -/
def assignedIds (s : BM) : List MOp → List Nat
  | [] => []
  | op :: ops =>
    (if (stepOp s op).nextPageId = s.nextPageId then [] else [s.nextPageId])
      ++ assignedIds (stepOp s op) ops

/-- Concrete console entries and states for the C9 scenario: one page is
created, one console event arrives, the buffer is read, then a second
event arrives. -/
def c9e1 : ConsoleLogEntry := ⟨"log", "first", "", 1⟩

def c9e2 : ConsoleLogEntry := ⟨"log", "second", "", 2⟩

def c9ne : NetworkLogEntry :=
  ⟨"https://x.example/a", "GET", some 200, "xhr", none, 3, some 5⟩

def c9s1 : BM := stepOp freshBM .newPageOp

def c9s2 : BM := consoleEvent c9s1 1 c9e1

def c9s3 : BM := consoleEvent c9s2 1 c9e2

/-- Well-formedness: every array reference held by a log map points into
the corresponding store. -/
abbrev refsWF {α : Type} (refs : List (Nat × Nat)) (store : List (List α)) :
    Prop :=
  ∀ p ∈ refs, p.2 < store.length

/-- Well-formedness of a manager state (holds for every reachable state). -/
abbrev BMWF (s : BM) : Prop :=
  refsWF s.consoleRefs s.consoleStore ∧ refsWF s.networkRefs s.networkStore

/-- The state after scenario B's first `getOrCreatePage()` on a fresh
session: exactly one page, id 1, handle 0. -/
def c5s1 : BM :=
  ⟨true, 2, 1, [(1, 0)], [(1, 0)], [[]], [(1, 0)], [[]]⟩

/- ─────────────── Route/Header/Storage mediator (storage) ─────────────── -/

/-- A cookie as serialized in the storage-state snapshot (identity
triple). -/
structure StorageCookie where
  name : String
  value : String
  domain : String
deriving DecidableEq, Repr

/-- One `{ name, value }` local-storage entry of a snapshot origin. -/
structure LocalStorageEntry where
  name : String
  value : String
deriving DecidableEq, Repr

/-- One `{ origin, localStorage }` record of a snapshot. -/
structure OriginState where
  origin : String
  localStorage : List LocalStorageEntry
deriving DecidableEq, Repr

/-- A parsed storage-state snapshot `{ cookies, origins }`. -/
structure StorageState where
  cookies : List StorageCookie
  origins : List OriginState
deriving DecidableEq, Repr

/-- An open page as the storage loader sees it: its current origin and its
local storage. -/
structure CtxPage where
  origin : String
  localStore : List (String × String)
deriving DecidableEq, Repr

/-- The browser context state the storage loader acts on. -/
structure Ctx where
  cookies : List StorageCookie
  pagesList : List CtxPage
deriving DecidableEq, Repr

/-- Replaying one snapshot origin via
`pages[0].evaluate(...)`: the injected script runs `localStorage.setItem`
for each entry only when `window.location.origin === originUrl`. -/
def applyOriginToPage (pg : CtxPage) (o : OriginState) : CtxPage :=
  if pg.origin = o.origin then
    { pg with localStore :=
        (o.localStorage.foldl (fun st en => alSet st en.name en.value)
          pg.localStore) }
  else pg

/-- One iteration of the `for (const origin of state.origins)` loop in
`loadStorageState`: when any page is open, evaluate against `pages[0]`
only. -/
def loadOriginStep (c : Ctx) (o : OriginState) : Ctx :=
  match c.pagesList with
  | [] => c
  | pg0 :: rest => { c with pagesList := applyOriginToPage pg0 o :: rest }

/-- `loadStorageState(filePath)`: fail when the file is missing, else add
all snapshot cookies to the context, then replay each origin through
`loadOriginStep`. -/
def loadStorageStateModel (filePath : String) (fileExists : Bool)
    (snap : StorageState) (ctx : Ctx) : Except String Ctx :=
  if fileExists then
    .ok (snap.origins.foldl loadOriginStep
      { ctx with cookies := ctx.cookies ++ snap.cookies })
  else .error ("File not found: " ++ filePath)

/-- Concrete snapshot for the C8 counterexample: one origin with one
local-storage entry. -/
def c8snap : StorageState :=
  ⟨[], [⟨"https://b.example", [⟨"k", "v"⟩]⟩]⟩

/-- Concrete context for the C8 counterexample: two open pages; the
*second* one's origin matches the snapshot origin. -/
def c8ctx : Ctx :=
  ⟨[], [⟨"https://a.example", []⟩, ⟨"https://b.example", []⟩]⟩

/- ──────────────────────────── Helper lemmas ──────────────────────────── -/

theorem jsRandInt_bounds (u : ℚ) (lo hi : Nat) (h0 : 0 ≤ u) (h1 : u < 1)
    (hlohi : lo ≤ hi) : lo ≤ jsRandInt u lo hi ∧ jsRandInt u lo hi ≤ hi := by
  unfold jsRandInt
  refine ⟨Nat.le_add_left _ _, ?_⟩
  have hcast : ((lo : ℚ)) ≤ (hi : ℚ) := Nat.cast_le.mpr hlohi
  have hspan : (0 : ℚ) < (hi : ℚ) - lo + 1 := by linarith
  have hlt : u * ((hi : ℚ) - lo + 1) < (hi : ℚ) - lo + 1 := by nlinarith
  have hfloor : ⌊u * ((hi : ℚ) - lo + 1)⌋₊ < hi - lo + 1 := by
    rw [Nat.floor_lt (mul_nonneg h0 (le_of_lt hspan))]
    push_cast [hlohi]
    exact hlt
  omega

theorem charDelayRange_le (c : Char) :
    (charDelayRange c).1 ≤ (charDelayRange c).2 := by
  unfold charDelayRange
  split_ifs <;> norm_num

theorem alGet_alSet_self {κ β : Type} [DecidableEq κ] (l : List (κ × β))
    (k : κ) (v : β) : alGet (alSet l k v) k = some v := by
  induction l with
  | nil => simp [alSet, alGet]
  | cons p l ih =>
    obtain ⟨a, b⟩ := p
    by_cases h : a = k
    · subst h; simp [alSet, alGet]
    · simp [alSet, alGet, h, ih]

theorem alGet_mem {κ β : Type} [DecidableEq κ] (l : List (κ × β)) (k : κ)
    (v : β) (h : alGet l k = some v) : (k, v) ∈ l := by
  induction l with
  | nil => simp [alGet] at h
  | cons p l ih =>
    obtain ⟨a, b⟩ := p
    by_cases hak : a = k
    · subst hak
      simp [alGet] at h
      subst h
      exact List.mem_cons_self _ _
    · simp only [alGet, if_neg hak] at h
      exact List.mem_cons_of_mem _ (ih h)

theorem maxKey_is_max {β : Type} (l : List (Nat × β)) (k : Nat)
    (hk : k ∈ l.map Prod.fst) : k ≤ maxKey l := by
  induction l with
  | nil => simp at hk
  | cons p l ih =>
    have hstep : maxKey (p :: l) = max p.1 (maxKey l) := rfl
    rw [List.map_cons, List.mem_cons] at hk
    rcases hk with h | h
    · rw [hstep, h]; exact le_max_left _ _
    · exact le_trans (ih h) (hstep ▸ le_max_right _ _)

theorem stepOp_nextPageId (s : BM) (op : MOp) :
    (stepOp s op).nextPageId = s.nextPageId ∨
    (stepOp s op).nextPageId = s.nextPageId + 1 := by
  cases op with
  | newPageOp =>
    by_cases h : s.connected
    · right; simp [stepOp, newPage, h, setupPageTracking]
    · left; simp [stepOp, newPage, h]
  | getOrCreateOp p =>
    cases p with
    | some pid =>
      cases hg : alGet s.pages pid with
      | some hh => left; simp [stepOp, getOrCreatePage, hg]
      | none => left; simp [stepOp, getOrCreatePage, hg]
    | none =>
      by_cases hp : 0 < s.pages.length
      · left; simp [stepOp, getOrCreatePage, hp]
      · by_cases h : s.connected
        · right
          simp [stepOp, getOrCreatePage, hp, newPage, h, setupPageTracking]
        · left; simp [stepOp, getOrCreatePage, hp, newPage, h]
  | closePageOp pid =>
    left
    cases hg : alGet s.pages pid <;> simp [stepOp, closePage, hg]
  | focusPageOp pid =>
    left
    cases hg : alGet s.pages pid <;> simp [stepOp, focusPage, hg]
  | pageCreatedEv =>
    right; simp [stepOp, pageCreatedEvent, setupPageTracking]
  | consoleEv pid e =>
    left
    cases hg : alGet s.consoleRefs pid with
    | none => simp [stepOp, consoleEvent, hg]
    | some r =>
      simp only [stepOp, consoleEvent, hg]
      split <;> rfl
  | networkEv pid e =>
    left
    cases hg : alGet s.networkRefs pid with
    | none => simp [stepOp, networkEvent, hg]
    | some r =>
      simp only [stepOp, networkEvent, hg]
      split <;> rfl
  | clearConsoleOp pid => left; simp [stepOp, clearConsoleLogs]
  | clearNetworkOp pid => left; simp [stepOp, clearNetworkLogs]

theorem assignedIds_spec :
    ∀ (ops : List MOp) (s : BM),
      (∀ i ∈ assignedIds s ops,
        s.nextPageId ≤ i ∧ i < (runOps s ops).nextPageId) ∧
      s.nextPageId ≤ (runOps s ops).nextPageId ∧
      List.Chain' (· < ·) (assignedIds s ops) := by
  intro ops
  induction ops with
  | nil =>
    intro s
    refine ⟨by simp [assignedIds], le_refl _, by simp [assignedIds]⟩
  | cons op ops ih =>
    intro s
    obtain ⟨ihb, ihm, ihc⟩ := ih (stepOp s op)
    have hrun : runOps s (op :: ops) = runOps (stepOp s op) ops := rfl
    rcases stepOp_nextPageId s op with heq | hsucc
    · have hids : assignedIds s (op :: ops)
          = assignedIds (stepOp s op) ops := by
        show (if (stepOp s op).nextPageId = s.nextPageId then []
            else [s.nextPageId]) ++ assignedIds (stepOp s op) ops = _
        rw [if_pos heq, List.nil_append]
      rw [hids, hrun]
      refine ⟨?_, by omega, ihc⟩
      intro i hi
      have := ihb i hi
      omega
    · have hids : assignedIds s (op :: ops)
          = s.nextPageId :: assignedIds (stepOp s op) ops := by
        show (if (stepOp s op).nextPageId = s.nextPageId then []
            else [s.nextPageId]) ++ assignedIds (stepOp s op) ops
          = s.nextPageId :: assignedIds (stepOp s op) ops
        rw [if_neg (by omega), List.singleton_append]
      rw [hids, hrun]
      refine ⟨?_, by omega, ?_⟩
      · intro i hi
        rcases List.mem_cons.mp hi with rfl | hi'
        · exact ⟨le_refl _, by omega⟩
        · have := ihb i hi'
          omega
      · rw [List.chain'_cons']
        refine ⟨?_, ihc⟩
        intro b hb
        have hbmem : b ∈ assignedIds (stepOp s op) ops :=
          List.mem_of_mem_head? hb
        have := ihb b hbmem
        omega

theorem recordBounded_of_lt {α : Type} (logs : List α) (e : α)
    (h : logs.length < 500) : recordBounded logs e = logs ++ [e] := by
  simp [recordBounded, h]

theorem recordBounded_of_full {α : Type} (logs : List α) (e : α)
    (h : ¬ logs.length < 500) : recordBounded logs e = logs := by
  simp [recordBounded, h]

theorem recordAll_closed_form {α : Type} :
    ∀ (es : List α) (logs : List α), logs.length ≤ 500 →
      recordAll logs es = logs ++ es.take (500 - logs.length) := by
  intro es
  induction es with
  | nil => intro logs _; simp [recordAll]
  | cons e es ih =>
    intro logs hlen
    by_cases h : logs.length < 500
    · have step : recordAll logs (e :: es) = recordAll (logs ++ [e]) es := by
        simp [recordAll, recordBounded, h]
      rw [step, ih (logs ++ [e]) (by simp; omega)]
      have htake : 500 - logs.length = (500 - (logs.length + 1)) + 1 :=
        (Nat.succ_pred_eq_of_pos (Nat.sub_pos_of_lt h)).symm
      simp [List.take_succ_cons, htake, List.append_assoc]
    · have h500 : logs.length = 500 := le_antisymm hlen (Nat.le_of_not_lt h)
      have step : recordAll logs (e :: es) = recordAll logs es := by
        simp [recordAll, recordBounded, h]
      rw [step, ih logs hlen]
      simp [h500]

theorem recordAll_from_empty {α : Type} (es : List α) :
    recordAll ([] : List α) es = es.take 500 := by
  simpa using recordAll_closed_form es [] (by simp)

theorem c1Entry_injective : Function.Injective c1Entry := by
  intro a b h
  exact congrArg ConsoleLogEntry.timestamp h

theorem stepsFor_def (d2 : ℚ) :
    stepsFor d2 = max 5 (min 25 (Nat.sqrt ⌊d2⌋₊ / 30)) := rfl

theorem easeInOut_zero : easeInOut 0 = 0 := by
  norm_num [easeInOut]

theorem easeInOut_one : easeInOut 1 = 1 := by
  norm_num [easeInOut]

theorem bezierPoint_zero (p0 p1 p2 p3 : Pt) : bezierPoint p0 p1 p2 p3 0 = p0 := by
  cases p0
  simp only [bezierPoint, Pt.mk.injEq]
  constructor <;> ring

theorem bezierPoint_one (p0 p1 p2 p3 : Pt) : bezierPoint p0 p1 p2 p3 1 = p3 := by
  cases p3
  simp only [bezierPoint, Pt.mk.injEq]
  constructor <;> ring

theorem randf_pm_one (u : ℚ) (h0 : 0 ≤ u) (h1 : u < 1) :
    -1 ≤ randf u (-1) 1 ∧ randf u (-1) 1 ≤ 1 := by
  unfold randf
  constructor <;> nlinarith

theorem jsRound_jitter (q j : ℚ) (h1 : -1 ≤ j) (h2 : j ≤ 1) :
    |((jsRound (q + j)) : ℚ) - q| ≤ 2 := by
  have hle : ((⌊q + j + 1/2⌋ : ℤ) : ℚ) ≤ q + j + 1/2 := Int.floor_le _
  have hgt : q + j + 1/2 - 1 < ((⌊q + j + 1/2⌋ : ℤ) : ℚ) := Int.sub_one_lt_floor _
  rw [jsRound, abs_le]
  constructor <;> linarith

theorem generateMousePath_length (rng : ℕ → ℚ) (start pEnd : Pt) (steps : ℕ) :
    (generateMousePath rng start pEnd steps).length = steps + 1 := by
  simp [generateMousePath]

theorem generateMousePath_head (rng : ℕ → ℚ) (start pEnd : Pt) (steps : ℕ)
    (p : ℤ × ℤ) (hp : (generateMousePath rng start pEnd steps)[0]? = some p) :
    p = (jsRound (start.x + randf (rng 8) (-1) 1),
         jsRound (start.y + randf (rng 9) (-1) 1)) := by
  unfold generateMousePath at hp
  rw [List.getElem?_map, List.getElem?_range (by omega)] at hp
  simp only [Option.map_some', Option.some.injEq] at hp
  rw [← hp]
  norm_num [easeInOut_zero, bezierPoint_zero]

theorem generateMousePath_last (rng : ℕ → ℚ) (start pEnd : Pt) (steps : ℕ)
    (hs : steps ≠ 0) (p : ℤ × ℤ)
    (hp : (generateMousePath rng start pEnd steps)[steps]? = some p) :
    p = (jsRound (pEnd.x + randf (rng (8 + 2 * steps)) (-1) 1),
         jsRound (pEnd.y + randf (rng (9 + 2 * steps)) (-1) 1)) := by
  unfold generateMousePath at hp
  rw [List.getElem?_map, List.getElem?_range (by omega)] at hp
  simp only [Option.map_some', Option.some.injEq] at hp
  rw [← hp]
  have hq : ((steps : ℚ)) ≠ 0 := Nat.cast_ne_zero.mpr hs
  rw [div_self hq, easeInOut_one, bezierPoint_one]

/- ─────────────────────────── Claim theorems: C1 ──────────────────────── -/

/-- C1 counterexample: a buffer already holding 500 entries, receiving one
more event via the source's handler, keeps the oldest entry and drops the
new one — the (500+1)-th append does not evict the oldest entry as the
claim states.  After 501 appends from empty the buffer holds the 500
*oldest* entries: entry 0 is still present and entry 500 is absent. -/
theorem c1_counterexample :
    recordAll ([] : List ConsoleLogEntry) ((List.range 501).map c1Entry)
      = (List.range 500).map c1Entry ∧
    c1Entry 0 ∈ (List.range 500).map c1Entry ∧
    c1Entry 500 ∉ (List.range 500).map c1Entry := by
  refine ⟨?_, ?_, ?_⟩
  · rw [recordAll_from_empty, ← List.map_take, List.take_range,
      Nat.min_eq_left (by norm_num)]
  · exact List.mem_map_of_mem _ (by simp)
  · intro h
    rcases List.mem_map.mp h with ⟨a, ha, hEq⟩
    have haEq : a = 500 := c1Entry_injective hEq
    subst haEq
    simp at ha

/-- C1 (amended): each telemetry buffer never exceeds 500 entries, but once
full the handler drops the *incoming* entry, not the oldest: after any
sequence of appends from empty the buffer holds exactly the first
`min n 500` entries (the 500 oldest), and later entries are silently
dropped. -/
theorem c1_telemetry_buffer_amended (es : List ConsoleLogEntry) :
    recordAll ([] : List ConsoleLogEntry) es = es.take 500 ∧
    (recordAll ([] : List ConsoleLogEntry) es).length ≤ 500 := by
  refine ⟨recordAll_from_empty es, ?_⟩
  rw [recordAll_from_empty, List.length_take]
  exact Nat.min_le_left _ _

/- ─────────────────────────── Claim theorems: C6 ──────────────────────── -/

/-- C6 counterexample: for start `(0,0)` and end `(750,0)` the step count is
the clamped value 25 but the generated path has 26 samples (the loop is
inclusive of both endpoints), falling outside the claimed `[5, 25]`. -/
theorem c6_counterexample :
    stepsFor (dist2 ⟨0, 0⟩ ⟨750, 0⟩) = 25 ∧
    (generateMousePath rngZero ⟨0, 0⟩ ⟨750, 0⟩
        (stepsFor (dist2 ⟨0, 0⟩ ⟨750, 0⟩))).length = 26 ∧
    ¬ (26 ≤ 25) := by
  have hd : dist2 ⟨0, 0⟩ ⟨750, 0⟩ = 562500 := by norm_num [dist2]
  have hfl : (⌊(562500 : ℚ)⌋₊ : ℕ) = 562500 := by rw [Nat.floor_ofNat]
  have hsteps : stepsFor (dist2 ⟨0, 0⟩ ⟨750, 0⟩) = 25 := by
    rw [hd, stepsFor_def, hfl,
      show Nat.sqrt 562500 = 750 by
        rw [show (562500 : ℕ) = 750 * 750 by norm_num, Nat.sqrt_eq],
      show (750 : ℕ) / 30 = 25 by norm_num, min_self,
      max_eq_right (by norm_num : (5 : ℕ) ≤ 25)]
  refine ⟨hsteps, ?_, by omega⟩
  rw [generateMousePath_length, hsteps]

/-- C6 (amended): for every start/end point and every legal random stream,
the step count is `clamp(⌊distance/30⌋, 5, 25)` and lies in `[5, 25]`, the
path has `steps + 1` samples (hence between 6 and 26, not `[5, 25]`), and
the first and last samples are within 2px of the start and end
respectively. -/
theorem c6_generateMousePath_amended (rng : ℕ → ℚ)
    (hr : ∀ i, 0 ≤ rng i ∧ rng i < 1) (start pEnd : Pt) :
    5 ≤ stepsFor (dist2 start pEnd) ∧
    stepsFor (dist2 start pEnd) ≤ 25 ∧
    (generateMousePath rng start pEnd (stepsFor (dist2 start pEnd))).length
      = stepsFor (dist2 start pEnd) + 1 ∧
    (∀ p, (generateMousePath rng start pEnd (stepsFor (dist2 start pEnd)))[0]?
        = some p → |(p.1 : ℚ) - start.x| ≤ 2 ∧ |(p.2 : ℚ) - start.y| ≤ 2) ∧
    (∀ p, (generateMousePath rng start pEnd
        (stepsFor (dist2 start pEnd)))[stepsFor (dist2 start pEnd)]?
        = some p → |(p.1 : ℚ) - pEnd.x| ≤ 2 ∧ |(p.2 : ℚ) - pEnd.y| ≤ 2) := by
  refine ⟨Nat.le_max_left _ _,
    Nat.max_le.mpr ⟨by norm_num, Nat.min_le_left _ _⟩,
    generateMousePath_length rng start pEnd _, ?_, ?_⟩
  · intro p hp
    have hEq := generateMousePath_head rng start pEnd _ p hp
    obtain ⟨h8a, h8b⟩ := randf_pm_one (rng 8) (hr 8).1 (hr 8).2
    obtain ⟨h9a, h9b⟩ := randf_pm_one (rng 9) (hr 9).1 (hr 9).2
    subst hEq
    exact ⟨jsRound_jitter _ _ h8a h8b, jsRound_jitter _ _ h9a h9b⟩
  · intro p hp
    have hs : stepsFor (dist2 start pEnd) ≠ 0 := by
      have := Nat.le_max_left 5 (min 25 (Nat.sqrt ⌊dist2 start pEnd⌋₊ / 30))
      unfold stepsFor
      omega
    have hEq := generateMousePath_last rng start pEnd _ hs p hp
    obtain ⟨ha, hb⟩ := randf_pm_one (rng (8 + 2 * stepsFor (dist2 start pEnd)))
      (hr _).1 (hr _).2
    obtain ⟨hc, hd⟩ := randf_pm_one (rng (9 + 2 * stepsFor (dist2 start pEnd)))
      (hr _).1 (hr _).2
    subst hEq
    exact ⟨jsRound_jitter _ _ ha hb, jsRound_jitter _ _ hc hd⟩

/-- C6 witness: the amended theorem applied to the all-zeros random stream
and the concrete move from `(0,0)` to `(3,4)`. -/
theorem c6_generateMousePath_amended_witness :
    (∀ i : ℕ, 0 ≤ rngZero i ∧ rngZero i < 1) ∧
    (generateMousePath rngZero ⟨0, 0⟩ ⟨3, 4⟩
        (stepsFor (dist2 ⟨0, 0⟩ ⟨3, 4⟩))).length
      = stepsFor (dist2 ⟨0, 0⟩ ⟨3, 4⟩) + 1 :=
  ⟨fun _ => ⟨le_refl 0, by norm_num [rngZero]⟩,
   (c6_generateMousePath_amended rngZero (fun _ => ⟨le_refl 0, by norm_num [rngZero]⟩)
     ⟨0, 0⟩ ⟨3, 4⟩).2.2.1⟩

/- ─────────────────────────── Claim theorems: C7 ──────────────────────── -/

/-- C7: for every character, the inter-keystroke delay before the optional
thinking pause lies in the range of its character class — space 30–80,
newline or `.` (the sentence terminator the code tests for) 100–250,
uppercase letter 60–130, digit 70–140, the fixed punctuation set 80–160,
anything else 30–100 — and exactly when the extra `Math.random()` draw is
below 0.05 (a 5% event for a uniform draw) an additional pause of 200–500
ms is added. -/
theorem c7_humanType_delay :
    (∀ (c : Char) (u0 u1 u2 : ℚ), 0 ≤ u0 → u0 < 1 → 0 ≤ u2 → u2 < 1 →
      ((charDelayRange c).1 ≤ humanTypeBaseDelay u0 c ∧
        humanTypeBaseDelay u0 c ≤ (charDelayRange c).2) ∧
      (u1 < 1/20 →
        humanTypeDelay c u0 u1 u2
          = humanTypeBaseDelay u0 c + jsRandInt u2 200 500 ∧
        200 ≤ jsRandInt u2 200 500 ∧ jsRandInt u2 200 500 ≤ 500) ∧
      (¬ u1 < 1/20 → humanTypeDelay c u0 u1 u2 = humanTypeBaseDelay u0 c)) ∧
    charDelayRange ' ' = (30, 80) ∧
    charDelayRange '\n' = (100, 250) ∧ charDelayRange '.' = (100, 250) ∧
    (∀ c, 'A' ≤ c → c ≤ 'Z' → charDelayRange c = (60, 130)) ∧
    (∀ c, '0' ≤ c → c ≤ '9' → charDelayRange c = (70, 140)) ∧
    (∀ c ∈ punctuationChars, charDelayRange c = (80, 160)) ∧
    (∀ c, c ≠ ' ' → ¬(c = '\n' ∨ c = '.') → ¬('A' ≤ c ∧ c ≤ 'Z') →
      ¬('0' ≤ c ∧ c ≤ '9') → c ∉ punctuationChars →
      charDelayRange c = (30, 100)) := by
  refine ⟨?_, by decide, by decide, by decide, ?_, ?_, by decide, ?_⟩
  · intro c u0 u1 u2 h00 h01 h20 h21
    refine ⟨jsRandInt_bounds u0 _ _ h00 h01 (charDelayRange_le c), ?_, ?_⟩
    · intro hu1
      exact ⟨by unfold humanTypeDelay; rw [if_pos hu1],
        jsRandInt_bounds u2 200 500 h20 h21 (by norm_num)⟩
    · intro hu1
      unfold humanTypeDelay
      rw [if_neg hu1]
  · intro c h1 h2
    have hs : c ≠ ' ' := by rintro rfl; exact absurd h1 (by decide)
    have hn : ¬(c = '\n' ∨ c = '.') := by
      rintro (rfl | rfl) <;> exact absurd h1 (by decide)
    unfold charDelayRange
    rw [if_neg hs, if_neg hn, if_pos ⟨h1, h2⟩]
  · intro c h1 h2
    have hs : c ≠ ' ' := by rintro rfl; exact absurd h1 (by decide)
    have hn : ¬(c = '\n' ∨ c = '.') := by
      rintro (rfl | rfl) <;> exact absurd h1 (by decide)
    have hAZ : ¬('A' ≤ c ∧ c ≤ 'Z') := by
      rintro ⟨ha, _⟩; exact absurd (le_trans ha h2) (by decide)
    unfold charDelayRange
    rw [if_neg hs, if_neg hn, if_neg hAZ, if_pos ⟨h1, h2⟩]
  · intro c h1 h2 h3 h4 h5
    unfold charDelayRange
    rw [if_neg h1, if_neg h2, if_neg h3, if_neg h4, if_neg h5]

/-- C7 witness: the typing-delay theorem applied at the character `x` with
the all-zeros draws. -/
theorem c7_humanType_delay_witness :
    (0 : ℚ) ≤ 0 ∧ (0 : ℚ) < 1 ∧
    ((charDelayRange 'x').1 ≤ humanTypeBaseDelay 0 'x' ∧
      humanTypeBaseDelay 0 'x' ≤ (charDelayRange 'x').2) :=
  ⟨le_refl 0, by norm_num,
   (c7_humanType_delay.1 'x' 0 1 0 (le_refl 0) (by norm_num) (le_refl 0)
     (by norm_num)).1⟩

/- ─────────────────────── Claim theorems: C2 and C3 ───────────────────── -/

theorem truthyOpt_eq_true {x : Option String} (h : truthyOpt x = true) :
    ∃ s, x = some s ∧ s ≠ "" := by
  cases x with
  | none => simp [truthyOpt] at h
  | some s => exact ⟨s, rfl, by simpa [truthyOpt] using h⟩

/-- C2: when no CDP url is configured, a profile directory is configured,
and the persistent launch fails with a locked-profile class error (one of
the lock substrings present, neither fallback substring present), `connect`
fails with the remediation-text error built from the original message, and
attempts only the persistent strategy — neither the spawn-and-attach
recovery nor the ephemeral launch. -/
theorem c2_profile_locked (o : BrowserConnectionOptions) (env : DriverEnv)
    (m : String)
    (hc : truthyOpt o.cdpUrl = false)
    (hu : truthyOpt o.userDataDir = true)
    (he : env.persistentErr = some m)
    (h1 : strContains m needsCdpMsg1 = false)
    (h2 : strContains m needsCdpMsg2 = false)
    (h3 : (strContains m lockMsg1 || strContains m lockMsg2
      || strContains m lockMsg3) = true) :
    (connectModel o env).result = .error (lockedRemediation ++ m) ∧
    (connectModel o env).attempted = [Strat.persistent] ∧
    Strat.spawnAttach ∉ (connectModel o env).attempted ∧
    Strat.ephemeral ∉ (connectModel o env).attempted := by
  obtain ⟨d, hd, hne⟩ := truthyOpt_eq_true hu
  have hlp : launchPersistentModel (o.userDataDir.getD "") env
      = .error (.thrown (lockedRemediation ++ m)) := by
    rw [hd]
    unfold launchPersistentModel
    simp only [Option.getD_some]
    rw [if_neg hne, he]
    simp only [h1, h2, Bool.or_self, Bool.false_eq_true, if_false, h3,
      if_true]
  have hres : connectModel o env
      = ⟨.error (lockedRemediation ++ m), [Strat.persistent]⟩ := by
    unfold connectModel
    rw [hc, hu]
    simp only [Bool.false_eq_true, if_false, if_true, hlp]
  rw [hres]
  refine ⟨rfl, rfl, ?_, ?_⟩ <;> simp

/-- C2 witness: a locked-profile failure (`SingletonLock` in the message)
with a configured profile directory and no CDP url. -/
theorem c2_profile_locked_witness :
    truthyOpt (none : Option String) = false ∧
    truthyOpt (some "/home/user/chrome-profile") = true ∧
    (connectModel
        { userDataDir := some "/home/user/chrome-profile" }
        { cdpAttachErr := fun _ => some "refused"
          persistentErr := some "Failed to create a ProcessSingleton for your profile directory: SingletonLock"
          chromeStarts := false
          tempLaunchErr := none }).result
      = .error (lockedRemediation
          ++ "Failed to create a ProcessSingleton for your profile directory: SingletonLock") := by
  refine ⟨rfl, rfl, ?_⟩
  exact (c2_profile_locked
    { userDataDir := some "/home/user/chrome-profile" }
    { cdpAttachErr := fun _ => some "refused"
      persistentErr := some "Failed to create a ProcessSingleton for your profile directory: SingletonLock"
      chromeStarts := false
      tempLaunchErr := none }
    "Failed to create a ProcessSingleton for your profile directory: SingletonLock"
    rfl rfl rfl (by decide) (by decide) (by decide)).1

/-- C3 counterexample: with an attach (CDP) url configured, the profile
directory unset, and nothing listening at the endpoint, `connect` fails
with the attach error and never reaches the ephemeral launch — it does not
fall through as the claim states. -/
theorem c3_counterexample :
    (connectModel c3Options c3Env).result
      = .error "connect ECONNREFUSED 127.0.0.1:9222" ∧
    (connectModel c3Options c3Env).attempted = [Strat.attachConfigured] ∧
    Strat.ephemeral ∉ (connectModel c3Options c3Env).attempted := by
  refine ⟨rfl, rfl, ?_⟩
  rw [show (connectModel c3Options c3Env).attempted
      = [Strat.attachConfigured] from rfl]
  simp

/-- C3 (amended): the fall-through to the ephemeral launch happens for the
*default* attach attempt — when no CDP url and no profile directory are
configured and the well-known local endpoint is not listening, `connect`
launches a temporary browser and the resulting session reports the
requested engine; with an explicitly configured CDP url the attach failure
is fatal instead. -/
theorem c3_default_attach_fallback (o : BrowserConnectionOptions)
    (env : DriverEnv) (m : String)
    (hc : truthyOpt o.cdpUrl = false)
    (hu : truthyOpt o.userDataDir = false)
    (ha : env.cdpAttachErr "http://localhost:9222" = some m)
    (ht : env.tempLaunchErr = none) :
    (connectModel o env).result = .ok ⟨temporaryLaunchMessage o, engineOf o⟩ ∧
    (connectModel o env).attempted = [Strat.defaultAttach, Strat.ephemeral] ∧
    engineOf o = o.browser.getD "chromium" := by
  have hres : connectModel o env
      = ⟨.ok ⟨temporaryLaunchMessage o, engineOf o⟩,
          [Strat.defaultAttach, Strat.ephemeral]⟩ := by
    unfold connectModel
    rw [hc, hu]
    simp only [Bool.false_eq_true, if_false, ha, ht]
  rw [hres]
  exact ⟨rfl, rfl, rfl⟩

/-- C3 witness: the amended theorem at a concrete webkit configuration with
a dead default endpoint. -/
theorem c3_default_attach_fallback_witness :
    (connectModel { browser := some "webkit" }
        { cdpAttachErr := fun _ => some "ECONNREFUSED"
          persistentErr := none
          chromeStarts := false
          tempLaunchErr := none }).result
      = .ok ⟨temporaryLaunchMessage { browser := some "webkit" },
          engineOf { browser := some "webkit" }⟩ :=
  (c3_default_attach_fallback { browser := some "webkit" }
    { cdpAttachErr := fun _ => some "ECONNREFUSED"
      persistentErr := none
      chromeStarts := false
      tempLaunchErr := none }
    "ECONNREFUSED" rfl rfl rfl rfl).1

/- ──────────────────── Claim theorems: C4, C5, C10 ────────────────────── -/

/-- C4: along any interleaving of registry and telemetry operations from a
fresh session, the page ids assigned are strictly increasing in order of
assignment, all positive, and pairwise distinct — in particular an id freed
by `closePage` is never assigned to a later page, because every later
assignment takes a strictly larger id. -/
theorem c4_page_ids (ops : List MOp) :
    List.Chain' (· < ·) (assignedIds freshBM ops) ∧
    (∀ i ∈ assignedIds freshBM ops, 0 < i) ∧
    (assignedIds freshBM ops).Nodup := by
  obtain ⟨hb, _, hc⟩ := assignedIds_spec ops freshBM
  refine ⟨hc, ?_, ?_⟩
  · intro i hi
    have h1 := (hb i hi).1
    have : freshBM.nextPageId = 1 := rfl
    omega
  · have hp : List.Pairwise (· < ·) (assignedIds freshBM ops) :=
      List.chain'_iff_pairwise.mp hc
    exact hp.imp (fun h => ne_of_lt h)

/-- C5: `getOrCreatePage` with an explicit id returns the tracked page with
that id or fails with the page-not-found error; with no id it returns the
page with the highest tracked id (`maxKey` dominates every key); and on a
fresh session the first no-id call creates exactly one page with id 1,
which a second no-id call returns again unchanged. -/
theorem c5_getOrCreatePage :
    (∀ (s : BM) (pid h : Nat), alGet s.pages pid = some h →
      getOrCreatePage s (some pid) = .ok (s, pid, h)) ∧
    (∀ (s : BM) (pid : Nat), alGet s.pages pid = none →
      getOrCreatePage s (some pid) = .error ("Page " ++ toString pid
        ++ " not found. Use list_pages to see available pages.")) ∧
    (∀ s : BM, 0 < s.pages.length →
      getOrCreatePage s none
        = .ok (s, maxKey s.pages, (alGet s.pages (maxKey s.pages)).getD 0)) ∧
    (∀ (l : List (Nat × Nat)) (k : Nat), k ∈ l.map Prod.fst → k ≤ maxKey l) ∧
    getOrCreatePage freshBM none = .ok (c5s1, 1, 0) ∧
    getOrCreatePage c5s1 none = .ok (c5s1, 1, 0) ∧
    c5s1.pages = [(1, 0)] := by
  refine ⟨?_, ?_, ?_, maxKey_is_max, rfl, rfl, rfl⟩
  · intro s pid h hh
    simp [getOrCreatePage, hh]
  · intro s pid hh
    simp [getOrCreatePage, hh]
  · intro s h
    simp [getOrCreatePage, h]

/-- C5 witness: a fresh session tracks no page 7, so `getOrCreatePage 7`
fails with the page-not-found error. -/
theorem c5_getOrCreatePage_witness :
    alGet freshBM.pages 7 = none ∧
    getOrCreatePage freshBM (some 7) = .error ("Page " ++ toString 7
      ++ " not found. Use list_pages to see available pages.") :=
  ⟨rfl, c5_getOrCreatePage.2.1 freshBM 7 rfl⟩

/-- C10: for an untracked page id, `closePage` and `focusPage` succeed and
leave the whole manager state (registry, telemetry buffers, tracked pages)
unchanged, while `getOrCreatePage` with that id fails. -/
theorem c10_unknown_page_ops (s : BM) (pid : Nat)
    (h : alGet s.pages pid = none) :
    closePage s pid = s ∧ focusPage s pid = s ∧
    getOrCreatePage s (some pid) = .error ("Page " ++ toString pid
      ++ " not found. Use list_pages to see available pages.") := by
  refine ⟨?_, ?_, ?_⟩ <;> simp [closePage, focusPage, getOrCreatePage, h]

/-- C10 witness: the unknown-id operations on a fresh session at id 42. -/
theorem c10_unknown_page_ops_witness :
    alGet freshBM.pages 42 = none ∧ closePage freshBM 42 = freshBM ∧
    focusPage freshBM 42 = freshBM :=
  ⟨rfl, (c10_unknown_page_ops freshBM 42 rfl).1,
   (c10_unknown_page_ops freshBM 42 rfl).2.1⟩

/- ─────────────────── Store lemmas and C9 / C8 theorems ───────────────── -/

theorem getD_concat_length {α : Type} (l : List (List α)) (x : List α) :
    (l ++ [x]).getD l.length [] = x := by
  rw [List.getD_eq_getElem?_getD, List.getElem?_concat_length]
  rfl

theorem getD_append_lt {α : Type} (l : List (List α)) (x : List α) (r : Nat)
    (h : r < l.length) : (l ++ [x]).getD r [] = l.getD r [] := by
  rw [List.getD_eq_getElem?_getD, List.getD_eq_getElem?_getD,
    List.getElem?_append_left h]

theorem getD_set_self {α : Type} (l : List (List α)) (v : List α) (r : Nat)
    (h : r < l.length) : (l.set r v).getD r [] = v := by
  rw [List.getD_eq_getElem?_getD, List.getElem?_set_self h]
  rfl

theorem getD_set_ne {α : Type} (l : List (List α)) (v : List α) (r r' : Nat)
    (h : r ≠ r') : (l.set r v).getD r' [] = l.getD r' [] := by
  rw [List.getD_eq_getElem?_getD, List.getD_eq_getElem?_getD,
    List.getElem?_set_ne h]

/-- C9 counterexample: `getConsoleLogs` returns the live buffer, not a
copy.  After one console event the returned reference denotes `[c9e1]`;
after a second event arrives, the *same previously returned reference*
denotes `[c9e1, c9e2]` — the earlier return value has changed. -/
theorem c9_counterexample :
    consoleValAt c9s2 (getConsoleLogsRef c9s2 1) = [c9e1] ∧
    consoleValAt c9s3 (getConsoleLogsRef c9s2 1) = [c9e1, c9e2] := by
  constructor <;> rfl

/-- C9 (amended): the getters alias the live buffer (see the
counterexample), but the clearing half of the claim holds: after
`clearConsoleLogs`/`clearNetworkLogs` the getter returns the empty list, an
event arriving after a clear lands in the fresh buffer (the getter then
returns exactly that event), and the pre-clear buffer — still reachable
through any reference returned before the clear — is not modified by the
post-clear event. -/
theorem c9_logs_amended (s : BM) (pid : Nat) (e : ConsoleLogEntry)
    (ne : NetworkLogEntry) (hw : BMWF s) :
    getConsoleLogsVal (clearConsoleLogs s pid) pid = [] ∧
    getNetworkLogsVal (clearNetworkLogs s pid) pid = [] ∧
    getConsoleLogsVal (consoleEvent (clearConsoleLogs s pid) pid e) pid
      = [e] ∧
    getNetworkLogsVal (networkEvent (clearNetworkLogs s pid) pid ne) pid
      = [ne] ∧
    (∀ r, getConsoleLogsRef s pid = some r →
      consoleValAt (consoleEvent (clearConsoleLogs s pid) pid e) (some r)
        = consoleValAt s (some r)) ∧
    (∀ r, getNetworkLogsRef s pid = some r →
      networkValAt (networkEvent (clearNetworkLogs s pid) pid ne) (some r)
        = networkValAt s (some r)) := by
  have hrefC : alGet (clearConsoleLogs s pid).consoleRefs pid
      = some s.consoleStore.length := alGet_alSet_self _ _ _
  have hbufC : (clearConsoleLogs s pid).consoleStore.getD
      s.consoleStore.length [] = [] := getD_concat_length _ _
  have hrefN : alGet (clearNetworkLogs s pid).networkRefs pid
      = some s.networkStore.length := alGet_alSet_self _ _ _
  have hbufN : (clearNetworkLogs s pid).networkStore.getD
      s.networkStore.length [] = [] := getD_concat_length _ _
  have hevC : consoleEvent (clearConsoleLogs s pid) pid e
      = { clearConsoleLogs s pid with consoleStore :=
            (s.consoleStore ++ [[]]).set s.consoleStore.length ([] ++ [e]) } := by
    unfold consoleEvent
    rw [hrefC]
    dsimp only
    rw [hbufC]
    simp [clearConsoleLogs]
  have hevN : networkEvent (clearNetworkLogs s pid) pid ne
      = { clearNetworkLogs s pid with networkStore :=
            (s.networkStore ++ [[]]).set s.networkStore.length ([] ++ [ne]) } := by
    unfold networkEvent
    rw [hrefN]
    dsimp only
    rw [hbufN]
    simp [clearNetworkLogs]
  refine ⟨?_, ?_, ?_, ?_, ?_, ?_⟩
  · unfold getConsoleLogsVal getConsoleLogsRef
    rw [hrefC]
    exact hbufC
  · unfold getNetworkLogsVal getNetworkLogsRef
    rw [hrefN]
    exact hbufN
  · unfold getConsoleLogsVal getConsoleLogsRef
    rw [hevC]
    show consoleValAt _ (alGet (clearConsoleLogs s pid).consoleRefs pid) = [e]
    rw [hrefC]
    show ((s.consoleStore ++ [[]]).set s.consoleStore.length
      ([] ++ [e])).getD s.consoleStore.length [] = [e]
    rw [getD_set_self _ _ _ (by simp)]
    simp
  · unfold getNetworkLogsVal getNetworkLogsRef
    rw [hevN]
    show networkValAt _ (alGet (clearNetworkLogs s pid).networkRefs pid) = [ne]
    rw [hrefN]
    show ((s.networkStore ++ [[]]).set s.networkStore.length
      ([] ++ [ne])).getD s.networkStore.length [] = [ne]
    rw [getD_set_self _ _ _ (by simp)]
    simp
  · intro r hr
    have hrlt : r < s.consoleStore.length := hw.1 _ (alGet_mem _ _ _ hr)
    rw [hevC]
    show ((s.consoleStore ++ [[]]).set s.consoleStore.length
        ([] ++ [e])).getD r [] = s.consoleStore.getD r []
    rw [getD_set_ne _ _ _ _ (by omega), getD_append_lt _ _ _ hrlt]
  · intro r hr
    have hrlt : r < s.networkStore.length := hw.2 _ (alGet_mem _ _ _ hr)
    rw [hevN]
    show ((s.networkStore ++ [[]]).set s.networkStore.length
        ([] ++ [ne])).getD r [] = s.networkStore.getD r []
    rw [getD_set_ne _ _ _ _ (by omega), getD_append_lt _ _ _ hrlt]

/-- C9 witness: the amended theorem applied to the concrete state with one
page and one buffered console entry. -/
theorem c9_logs_amended_witness :
    BMWF c9s2 ∧ getConsoleLogsVal (clearConsoleLogs c9s2 1) 1 = [] :=
  ⟨by decide, (c9_logs_amended c9s2 1 c9e2 c9ne (by decide)).1⟩

theorem loadOriginStep_fold_nil (os : List OriginState)
    (ck : List StorageCookie) :
    os.foldl loadOriginStep ⟨ck, []⟩ = ⟨ck, []⟩ := by
  induction os with
  | nil => rfl
  | cons o os ih =>
    rw [List.foldl_cons, show loadOriginStep ⟨ck, []⟩ o = ⟨ck, []⟩ from rfl]
    exact ih

theorem loadOriginStep_fold_cons (os : List OriginState) :
    ∀ (ck : List StorageCookie) (pg0 : CtxPage) (rest : List CtxPage),
      os.foldl loadOriginStep ⟨ck, pg0 :: rest⟩
        = ⟨ck, os.foldl applyOriginToPage pg0 :: rest⟩ := by
  induction os with
  | nil => intro ck pg0 rest; rfl
  | cons o os ih =>
    intro ck pg0 rest
    rw [List.foldl_cons, List.foldl_cons,
      show loadOriginStep ⟨ck, pg0 :: rest⟩ o
        = ⟨ck, applyOriginToPage pg0 o :: rest⟩ from rfl]
    exact ih ck _ rest

/-- C8 counterexample: the snapshot's only origin matches the *second* open
page, but `loadStorageState` only ever evaluates against `pages[0]`, so the
call returns the context completely unchanged — the matching page does not
receive the entry `("k", "v")`, contradicting the claim that entries are
replayed into whichever open page's origin matches. -/
theorem c8_counterexample :
    loadStorageStateModel "state.json" true c8snap c8ctx = .ok c8ctx ∧
    (∃ pg ∈ c8ctx.pagesList,
      pg.origin = "https://b.example" ∧ pg.localStore = []) ∧
    c8snap.origins = [⟨"https://b.example", [⟨"k", "v"⟩]⟩] := by
  refine ⟨rfl, ⟨⟨"https://b.example", []⟩, by decide, rfl, rfl⟩, rfl⟩

/-- C8 (amended): `loadStorageState` always succeeds (given the file
exists), restores the snapshot's cookies unconditionally, and replays each
origin's local-storage entries only into the *first* open page and only
when that page's origin matches the snapshot origin; all other pages are
untouched, and an origin that does not match the first page (in
particular, when no page is open) is silently skipped. -/
theorem c8_loadStorageState_amended (fp : String) (snap : StorageState)
    (ctx : Ctx) :
    loadStorageStateModel fp true snap ctx
      = .ok ⟨ctx.cookies ++ snap.cookies,
          (match ctx.pagesList with
           | [] => []
           | pg0 :: rest =>
             snap.origins.foldl applyOriginToPage pg0 :: rest)⟩ ∧
    (∀ (pg : CtxPage) (o : OriginState), pg.origin ≠ o.origin →
      applyOriginToPage pg o = pg) := by
  constructor
  · show Except.ok (snap.origins.foldl loadOriginStep
        { ctx with cookies := ctx.cookies ++ snap.cookies }) = _
    cases hp : ctx.pagesList with
    | nil => rw [loadOriginStep_fold_nil]
    | cons pg0 rest => rw [loadOriginStep_fold_cons]
  · intro pg o h
    unfold applyOriginToPage
    rw [if_neg h]

/-- C8 witness: the amended closed form evaluated at the concrete
two-page context and one-origin snapshot. -/
theorem c8_loadStorageState_amended_witness :
    loadStorageStateModel "state.json" true c8snap c8ctx
      = .ok ⟨c8ctx.cookies ++ c8snap.cookies,
          (match c8ctx.pagesList with
           | [] => []
           | pg0 :: rest =>
             c8snap.origins.foldl applyOriginToPage pg0 :: rest)⟩ :=
  (c8_loadStorageState_amended "state.json" c8snap c8ctx).1

/-- C4 witness: the id-assignment invariants on a concrete run that
creates a page, closes it, and creates another. -/
theorem c4_page_ids_witness :
    List.Chain' (· < ·)
      (assignedIds freshBM [.newPageOp, .closePageOp 1, .newPageOp]) ∧
    (∀ i ∈ assignedIds freshBM [.newPageOp, .closePageOp 1, .newPageOp],
      0 < i) ∧
    (assignedIds freshBM [.newPageOp, .closePageOp 1, .newPageOp]).Nodup :=
  c4_page_ids [.newPageOp, .closePageOp 1, .newPageOp]
